import Mathlib

/-!
Verification of the tooltip coordinator
(`src/framework/theme/components/tooltip/tooltip.directive.ts`,
class `NbTooltipDirective`).

The directive is embedded as a state machine. Each TypeScript field of the
class becomes a field of `TooltipState`; each method becomes a function
`TooltipState → TooltipState`. Collaborator services (`NbOverlayService`,
`createContainer`, `patch`, the position and trigger strategy builders) live
in the repository's `cdk` module, which is not part of the sources here, so
their observable behaviour is modelled from the spec's section 6 interface
descriptions; each such definition carries a `Modelled from the spec:`
comment. An event log is threaded through the state so that the number of
overlay-creation calls, the number of content-render calls, and the order of
the initialization steps can be stated and proved.
-/

namespace NbTooltip

/-- Placement of the tooltip relative to the host
(`NbPosition`, spec section 3: enum top, right, bottom, left, start, end). -/
inductive NbPosition
  | TOP
  | RIGHT
  | BOTTOM
  | LEFT
  | START
  | END
deriving DecidableEq, Repr

/-- Viewport-fit adjustment policy (`NbAdjustment`, spec section 3). -/
inductive NbAdjustment
  | NOOP
  | CLOCKWISE
  | COUNTERCLOCKWISE
deriving DecidableEq, Repr

/-- Interaction trigger mode (`NbTrigger`, spec section 3). -/
inductive NbTrigger
  | CLICK
  | HOVER
  | HINT
  | FOCUS
  | NOOP
deriving DecidableEq, Repr

/-- The mutable context bag of the directive (`this.context`). The only keys
ever written by the directive are `icon` (icon input setter, line 104) and
`status` (status input setter, line 113), so the bag is embedded as a record
with those two optional fields; `Object.assign(this.context, { k })` becomes
an update of field `k` that leaves the other field untouched. -/
structure TooltipContext where
  icon : Option String
  status : Option String
deriving DecidableEq, Repr

/-- The empty context `{}` the directive starts with (line 78). -/
def TooltipContext.empty : TooltipContext :=
  { icon := none, status := none }

/-- Model of `NbAdjustableConnectedPositionStrategy` as built by
`createPositionStrategy` (lines 190-196): it records the host element it is
connected to, the placement, the adjustment policy, and the offset.
Modelled from the spec: section 6,
`connectedTo(host) -> .position(P) -> .adjustment(A) -> .offset(n)`.
The host element reference is abstracted to a `Nat` identifier. -/
structure NbAdjustableConnectedPositionStrategy where
  host : Nat
  position : NbPosition
  adjustment : NbAdjustment
  offset : Nat
deriving DecidableEq, Repr

/-- Scroll strategy passed to overlay creation (line 177). Modelled from the
spec: `show()` configures the overlay with a "reposition on scroll" policy. -/
inductive ScrollStrategy
  | reposition
deriving DecidableEq, Repr

/-- The configuration object passed to `overlay.create` (lines 175-178).
The strategy is optional because the field `this.positionStrategy` is
undefined until `subscribeOnPositionChange` runs. -/
structure OverlayConfig where
  positionStrategy : Option NbAdjustableConnectedPositionStrategy
  scrollStrategy : ScrollStrategy
deriving DecidableEq, Repr

/-- Model of `NbOverlayRef`, the overlay handle. Modelled from the spec:
section 6, an OverlayHandle exposes `detach()`, `dispose()`,
`hasAttached() -> bool`; it is created by `OverlayHost.create(config)`.
`id` is a creation identifier used to state that the directive never
replaces the handle once created; `attached` is the state queried by
`hasAttached()`; `disposed` records that `dispose()` was called. -/
structure NbOverlayRef where
  id : Nat
  config : OverlayConfig
  attached : Bool
  disposed : Bool
deriving DecidableEq, Repr

/-- Method `hasAttached()` of an overlay handle. -/
def NbOverlayRef.hasAttached (r : NbOverlayRef) : Bool :=
  r.attached

/-- Model of the rendered tooltip container (`ComponentRef<NbTooltipComponent>`
as produced by `createContainer`, lines 182-187): the props it was rendered
with. The `cfr` (component factory resolver) prop carries no behaviour and is
omitted. -/
structure Container where
  position : NbPosition
  content : String
  context : TooltipContext
deriving DecidableEq, Repr

/-- Events recorded by the instrumented semantics: overlay creation calls,
content render calls and the init steps, in the order they are executed. -/
inductive Event
  | overlayCreate (cfg : OverlayConfig)
  | render
  | buildTriggerStrategy (t : NbTrigger)
  | subscribeTriggers
  | buildPositionStrategy (p : NbPosition) (a : NbAdjustment) (off : Nat)
  | subscribePositionChange
deriving DecidableEq, Repr

/-- Whether an event is an overlay creation call. -/
def Event.isOverlayCreate : Event → Bool
  | .overlayCreate _ => true
  | _ => false

/-- Whether an event is a content render (`createContainer`) call. -/
def Event.isRender : Event → Bool
  | .render => true
  | _ => false

/-- The state of one `NbTooltipDirective` instance: its input properties
(lines 84-122), its protected fields (lines 124-127), and the
instrumentation log. `hostRef` abstracts the injected `ElementRef`. -/
structure TooltipState where
  hostRef : Nat
  content : String
  position : NbPosition
  adjustment : NbAdjustment
  trigger : NbTrigger
  context : TooltipContext
  ref : Option NbOverlayRef
  container : Option Container
  positionStrategy : Option NbAdjustableConnectedPositionStrategy
  alive : Bool
  log : List Event
deriving DecidableEq, Repr

/-- A freshly constructed directive: inputs at their given values, context,
handle, container and strategy unset, `alive = true` (lines 78, 90, 97, 122,
124-127). -/
def initialState (host : Nat) (content : String) (p : NbPosition)
    (a : NbAdjustment) (t : NbTrigger) : TooltipState :=
  { hostRef := host
    content := content
    position := p
    adjustment := a
    trigger := t
    context := TooltipContext.empty
    ref := none
    container := none
    positionStrategy := none
    alive := true
    log := [] }

/-- A directive constructed with the default inputs: placement `TOP`,
adjustment `CLOCKWISE`, trigger `HINT` (lines 90, 97, 122). -/
def defaultState (host : Nat) (content : String) : TooltipState :=
  initialState host content .TOP .CLOCKWISE .HINT

/-- The `nbTooltipIcon` input setter (lines 104-106):
`this.context = Object.assign(this.context, { icon })`. -/
def setIcon (s : TooltipState) (icon : String) : TooltipState :=
  { s with context := { s.context with icon := some icon } }

/-- The `nbTooltipStatus` input setter (lines 113-115):
`this.context = Object.assign(this.context, { status })`. -/
def setStatus (s : TooltipState) (status : String) : TooltipState :=
  { s with context := { s.context with status := some status } }

/-- Method `createPositionStrategy()` (lines 190-196): builds the strategy connected
to the host from the current placement, adjustment, and offset 8. -/
def createPositionStrategy (s : TooltipState) :
    NbAdjustableConnectedPositionStrategy :=
  { host := s.hostRef
    position := s.position
    adjustment := s.adjustment
    offset := 8 }

/-- Method `createOverlay()` (lines 174-179): `this.ref = this.overlay.create({...})`.
Modelled from the spec: `OverlayHost.create(config) -> OverlayHandle` returns
a fresh handle with nothing attached; the handle's `id` is the number of
creation calls made so far, so distinct creations yield distinct handles. -/
def createOverlay (s : TooltipState) : TooltipState :=
  let cfg : OverlayConfig :=
    { positionStrategy := s.positionStrategy
      scrollStrategy := .reposition }
  { s with
    ref := some { id := s.log.countP Event.isOverlayCreate
                  config := cfg
                  attached := false
                  disposed := false }
    log := s.log ++ [.overlayCreate cfg] }

/-- Method `openTooltip()` (lines 181-188):
`this.container = createContainer(this.ref, NbTooltipComponent, {...})`.
Modelled from the spec: section 6, the content renderer
`createContainer(overlayHandle, ComponentType, props) -> ContentRef` renders
the hint content into the overlay (so the handle has attached content
afterwards) and returns the reference to the rendered content. `openTooltip`
is only ever reached with an existing handle, because `show()` creates one
first; the `none` branch is dead code and leaves the state unchanged. -/
def openTooltip (s : TooltipState) : TooltipState :=
  match s.ref with
  | some r =>
      { s with
        ref := some { r with attached := true }
        container := some { position := s.position
                            content := s.content
                            context := s.context }
        log := s.log ++ [.render] }
  | none => s

/-- Method `show()` (lines 150-156): create the overlay only if no handle exists,
then render the tooltip into it. -/
def «show» (s : TooltipState) : TooltipState :=
  let s1 := if s.ref.isNone then createOverlay s else s
  openTooltip s1

/-- Method `hide()` (lines 158-164): if a handle exists call `ref.detach()`, then
clear the container reference. Modelled from the spec: `detach()` detaches
the rendered content from the overlay, leaving the handle itself intact; on
a handle with nothing attached it changes nothing. -/
def hide (s : TooltipState) : TooltipState :=
  let s1 :=
    match s.ref with
    | some r => { s with ref := some { r with attached := false } }
    | none => s
  { s1 with container := none }

/-- Method `toggle()` (lines 166-172): hide if `this.ref && this.ref.hasAttached()`,
else show. -/
def toggle (s : TooltipState) : TooltipState :=
  match s.ref with
  | some r => if r.hasAttached then hide s else «show» s
  | none => «show» s

/-- The condition `this.ref && this.ref.hasAttached()` tested by `toggle`
(line 167): a handle exists and has attached content. -/
def shown (s : TooltipState) : Bool :=
  match s.ref with
  | some r => r.hasAttached
  | none => false

/-- The step `this.ref.dispose()` guarded by `if (this.ref)` in `ngOnDestroy`
(lines 145-147). Modelled from the spec: `dispose()` releases the overlay's
underlying resources. -/
def disposeRef (s : TooltipState) : TooltipState :=
  match s.ref with
  | some r => { s with ref := some { r with disposed := true } }
  | none => s

/-- The statement `this.alive = false` (line 143). -/
def markNotAlive (s : TooltipState) : TooltipState :=
  { s with alive := false }

/-- Method `ngOnDestroy()` (lines 142-148): set `alive` false, call `hide()`, then
dispose the handle if one exists — in that order. -/
def ngOnDestroy (s : TooltipState) : TooltipState :=
  let s1 := markNotAlive s
  let s2 := hide s1
  disposeRef s2

/-- Method `subscribeOnTriggers()` (lines 213-217): build the trigger strategy from
the trigger mode, host and container supplier, then subscribe its show and
hide streams. The subscription's routing (through the liveness filter) is
given by `deliverTriggerShow` and `deliverTriggerHide`; here only the build
and subscribe steps are recorded. -/
def subscribeOnTriggers (s : TooltipState) : TooltipState :=
  { s with log := s.log ++ [.buildTriggerStrategy s.trigger, .subscribeTriggers] }

/-- Method `subscribeOnPositionChange()` (lines 206-211):
`this.positionStrategy = this.createPositionStrategy()`, then subscribe to
its position-change stream. Routing of delivered notifications is given by
`deliverPositionChange`. -/
def subscribeOnPositionChange (s : TooltipState) : TooltipState :=
  let ps := createPositionStrategy s
  { s with
    positionStrategy := some ps
    log := s.log ++ [.buildPositionStrategy ps.position ps.adjustment ps.offset,
                     .subscribePositionChange] }

/-- Method `ngAfterViewInit()` (lines 137-140): `subscribeOnTriggers()` first, then
`subscribeOnPositionChange()`. -/
def ngAfterViewInit (s : TooltipState) : TooltipState :=
  subscribeOnPositionChange (subscribeOnTriggers s)

/-- Delivery of a position-change notification to the subscription made in
`subscribeOnPositionChange` (lines 208-210): the `takeWhile` liveness filter
drops it when `alive` is false; otherwise
`patch(this.container, { position })` updates the rendered content's
position field in place. Modelled from the spec: section 6,
`patch(contentRef, partialProps)` merges the given props into the rendered
content without re-creating it. -/
def deliverPositionChange (s : TooltipState) (p : NbPosition) : TooltipState :=
  if s.alive then
    { s with container := s.container.map (fun c => { c with position := p }) }
  else s

/-- Delivery of a trigger-strategy show signal (line 215): filtered by the
liveness flag, then routed to `show()`. -/
def deliverTriggerShow (s : TooltipState) : TooltipState :=
  if s.alive then «show» s else s

/-- Delivery of a trigger-strategy hide signal (line 216): filtered by the
liveness flag, then routed to `hide()`. -/
def deliverTriggerHide (s : TooltipState) : TooltipState :=
  if s.alive then hide s else s

/-- An external stimulus to a directive instance: a public operation call or
a delivered notification. -/
inductive Op
  | «show»
  | hide
  | toggle
  | destroy
  | triggerShow
  | triggerHide
  | posChange (p : NbPosition)
deriving DecidableEq, Repr

/-- Apply one stimulus. -/
def step (op : Op) (s : TooltipState) : TooltipState :=
  match op with
  | .«show» => «show» s
  | .hide => hide s
  | .toggle => toggle s
  | .destroy => ngOnDestroy s
  | .triggerShow => deliverTriggerShow s
  | .triggerHide => deliverTriggerHide s
  | .posChange p => deliverPositionChange s p

/-- Apply a sequence of stimuli, left to right. -/
def run (ops : List Op) (s : TooltipState) : TooltipState :=
  ops.foldl (fun s op => step op s) s

/-- Number of overlay creation calls recorded so far. -/
def createCount (s : TooltipState) : Nat :=
  s.log.countP Event.isOverlayCreate

/-- Number of content render (`createContainer`) calls recorded so far. -/
def renderCount (s : TooltipState) : Nat :=
  s.log.countP Event.isRender

/-- The creation identifier of the stored handle, if any. -/
def refId (s : TooltipState) : Option Nat :=
  s.ref.map (fun r => r.id)

/-- Whether the stored handle, if any, has been disposed. -/
def refDisposed (s : TooltipState) : Bool :=
  match s.ref with
  | some r => r.disposed
  | none => false

/-- Whether an event is the position strategy build step of initialization. -/
def Event.isBuildPositionStrategy : Event → Bool
  | .buildPositionStrategy _ _ _ => true
  | _ => false

/-- Whether an event is the trigger strategy build step of initialization. -/
def Event.isBuildTriggerStrategy : Event → Bool
  | .buildTriggerStrategy _ => true
  | _ => false

/-- The ordering asserted by the spec's initialization sequence: in the event
log, the position strategy build step occurs strictly before the trigger
strategy build step. -/
def positionBuiltBeforeTrigger (l : List Event) : Prop :=
  l.findIdx Event.isBuildPositionStrategy < l.findIdx Event.isBuildTriggerStrategy

/-- The reachability invariant of a directive instance: the number of overlay
creation calls made so far is 1 when a handle is stored and 0 otherwise, and
a stored container reference implies the handle exists and has attached
content. -/
def Inv (s : TooltipState) : Prop :=
  createCount s = (if s.ref.isSome then 1 else 0) ∧
  (s.container.isSome = true → shown s = true)

end NbTooltip

namespace NbTooltip

section BasicLemmas

/-- Effect of `show()` when a handle already exists (lines 150-156 take the
`openTooltip` path only): the handle is kept (content attached to it), the
container is re-rendered from the current props, and exactly one render call
is made. -/
theorem show_of_ref_some (s : TooltipState) (r : NbOverlayRef)
    (h : s.ref = some r) :
    «show» s = { s with
                  ref := some { r with attached := true }
                  container := some { position := s.position
                                      content := s.content
                                      context := s.context }
                  log := s.log ++ [.render] } := by
  simp [«show», openTooltip, h]

/-- Effect of `show()` when no handle exists (lines 150-156 take the
`createOverlay` path first): a fresh handle is created from the current
position strategy, then the container is rendered into it. -/
theorem show_of_ref_none (s : TooltipState) (h : s.ref = none) :
    «show» s = { s with
                  ref := some { id := createCount s
                                config := { positionStrategy := s.positionStrategy
                                            scrollStrategy := .reposition }
                                attached := true
                                disposed := false }
                  container := some { position := s.position
                                      content := s.content
                                      context := s.context }
                  log := s.log ++
                    [.overlayCreate { positionStrategy := s.positionStrategy
                                      scrollStrategy := .reposition },
                     .render] } := by
  simp [«show», openTooltip, createOverlay, createCount, h]

/-- Effect of `hide()` when a handle exists. -/
theorem hide_of_ref_some (s : TooltipState) (r : NbOverlayRef)
    (h : s.ref = some r) :
    hide s = { s with ref := some { r with attached := false }
                      container := none } := by
  simp [hide, h]

/-- Effect of `hide()` when no handle exists. -/
theorem hide_of_ref_none (s : TooltipState) (h : s.ref = none) :
    hide s = { s with container := none } := by
  simp [hide, h]

/-- Replacing a field by its current value leaves the state unchanged. -/
theorem TooltipState.eta_container (s : TooltipState)
    (h : s.container = none) : { s with container := none } = s := by
  cases s
  simp_all

end BasicLemmas

end NbTooltip

namespace NbTooltip

section Invariant

theorem inv_initial (host : Nat) (content : String) (p : NbPosition)
    (a : NbAdjustment) (t : NbTrigger) : Inv (initialState host content p a t) := by
  simp [Inv, initialState, createCount, shown]

theorem inv_ngAfterViewInit (s : TooltipState) (h : Inv s) :
    Inv (ngAfterViewInit s) := by
  obtain ⟨h1, h2⟩ := h
  refine ⟨?_, ?_⟩
  · simpa [ngAfterViewInit, subscribeOnTriggers, subscribeOnPositionChange,
      createCount, Event.isOverlayCreate] using h1
  · simpa [ngAfterViewInit, subscribeOnTriggers, subscribeOnPositionChange,
      shown] using h2

theorem inv_show (s : TooltipState) (h : Inv s) : Inv («show» s) := by
  obtain ⟨h1, h2⟩ := h
  cases href : s.ref with
  | none =>
      have h0 : s.log.countP Event.isOverlayCreate = 0 := by
        simpa [createCount, href] using h1
      rw [show_of_ref_none s href]
      refine ⟨?_, ?_⟩
      · simp [createCount, List.countP_append, List.countP_cons,
          Event.isOverlayCreate, h0]
      · simp [shown, NbOverlayRef.hasAttached]
  | some r =>
      have h0 : s.log.countP Event.isOverlayCreate = 1 := by
        simpa [createCount, href] using h1
      rw [show_of_ref_some s r href]
      refine ⟨?_, ?_⟩
      · simp [createCount, List.countP_append, List.countP_cons,
          Event.isOverlayCreate, h0]
      · simp [shown, NbOverlayRef.hasAttached]

theorem inv_hide (s : TooltipState) (h : Inv s) : Inv (hide s) := by
  obtain ⟨h1, h2⟩ := h
  cases href : s.ref with
  | none =>
      rw [hide_of_ref_none s href]
      exact ⟨by simpa [createCount, href] using h1, by simp⟩
  | some r =>
      rw [hide_of_ref_some s r href]
      exact ⟨by simpa [createCount, href] using h1, by simp⟩

theorem inv_toggle (s : TooltipState) (h : Inv s) : Inv (toggle s) := by
  cases href : s.ref with
  | none => simpa [toggle, href] using inv_show s h
  | some r =>
      by_cases hatt : r.hasAttached
      · simpa [toggle, href, hatt] using inv_hide s h
      · simpa [toggle, href, hatt] using inv_show s h

theorem inv_markNotAlive (s : TooltipState) (h : Inv s) :
    Inv (markNotAlive s) := by
  obtain ⟨h1, h2⟩ := h
  exact ⟨by simpa [markNotAlive, createCount] using h1,
         by simpa [markNotAlive, shown] using h2⟩

theorem inv_disposeRef (s : TooltipState) (h : Inv s) : Inv (disposeRef s) := by
  obtain ⟨h1, h2⟩ := h
  cases href : s.ref with
  | none => simpa [disposeRef, href] using ⟨h1, h2⟩
  | some r =>
      refine ⟨?_, ?_⟩
      · simpa [disposeRef, href, createCount] using h1
      · intro hc
        have := h2 (by simpa [disposeRef, href] using hc)
        simp_all [disposeRef, href, shown, NbOverlayRef.hasAttached]

theorem inv_ngOnDestroy (s : TooltipState) (h : Inv s) : Inv (ngOnDestroy s) := by
  exact inv_disposeRef _ (inv_hide _ (inv_markNotAlive _ h))

theorem inv_deliverPositionChange (s : TooltipState) (p : NbPosition)
    (h : Inv s) : Inv (deliverPositionChange s p) := by
  obtain ⟨h1, h2⟩ := h
  by_cases ha : s.alive
  · refine ⟨?_, ?_⟩
    · simpa [deliverPositionChange, ha, createCount] using h1
    · intro hc
      have hc' : s.container.isSome = true := by
        rcases hcon : s.container with _ | c
        · simp [deliverPositionChange, ha, hcon] at hc
        · simp
      have := h2 hc'
      simpa [deliverPositionChange, ha, shown] using this
  · simpa [deliverPositionChange, ha] using ⟨h1, h2⟩

theorem inv_step (op : Op) (s : TooltipState) (h : Inv s) : Inv (step op s) := by
  cases op with
  | «show» => exact inv_show s h
  | hide => exact inv_hide s h
  | toggle => exact inv_toggle s h
  | destroy => exact inv_ngOnDestroy s h
  | triggerShow =>
      by_cases ha : s.alive
      · simpa [step, deliverTriggerShow, ha] using inv_show s h
      · simpa [step, deliverTriggerShow, ha] using h
  | triggerHide =>
      by_cases ha : s.alive
      · simpa [step, deliverTriggerHide, ha] using inv_hide s h
      · simpa [step, deliverTriggerHide, ha] using h
  | posChange p => exact inv_deliverPositionChange s p h

theorem inv_run (ops : List Op) (s : TooltipState) (h : Inv s) :
    Inv (run ops s) := by
  induction ops generalizing s with
  | nil => simpa [run] using h
  | cons op ops ih =>
      have : run (op :: ops) s = run ops (step op s) := by simp [run]
      rw [this]
      exact ih _ (inv_step op s h)

end Invariant

end NbTooltip

namespace NbTooltip

section FieldLemmas

theorem alive_show (s : TooltipState) : («show» s).alive = s.alive := by
  cases href : s.ref with
  | none => rw [show_of_ref_none s href]
  | some r => rw [show_of_ref_some s r href]

theorem alive_hide (s : TooltipState) : (hide s).alive = s.alive := by
  cases href : s.ref with
  | none => rw [hide_of_ref_none s href]
  | some r => rw [hide_of_ref_some s r href]

theorem alive_toggle (s : TooltipState) : (toggle s).alive = s.alive := by
  cases href : s.ref with
  | none => simpa [toggle, href] using alive_show s
  | some r =>
      by_cases hatt : r.hasAttached
      · simpa [toggle, href, hatt] using alive_hide s
      · simpa [toggle, href, hatt] using alive_show s

theorem alive_disposeRef (s : TooltipState) : (disposeRef s).alive = s.alive := by
  cases href : s.ref with
  | none => simp [disposeRef, href]
  | some r => simp [disposeRef, href]

theorem alive_ngOnDestroy (s : TooltipState) : (ngOnDestroy s).alive = false := by
  simp [ngOnDestroy, alive_disposeRef, alive_hide, markNotAlive]

theorem log_hide (s : TooltipState) : (hide s).log = s.log := by
  cases href : s.ref with
  | none => rw [hide_of_ref_none s href]
  | some r => rw [hide_of_ref_some s r href]

theorem log_disposeRef (s : TooltipState) : (disposeRef s).log = s.log := by
  cases href : s.ref with
  | none => simp [disposeRef, href]
  | some r => simp [disposeRef, href]

theorem log_ngOnDestroy (s : TooltipState) : (ngOnDestroy s).log = s.log := by
  simp [ngOnDestroy, log_disposeRef, log_hide, markNotAlive]

theorem ngOnDestroy_ref_some (s : TooltipState) (r : NbOverlayRef)
    (h : s.ref = some r) :
    (ngOnDestroy s).ref = some { r with attached := false, disposed := true } ∧
    (ngOnDestroy s).container = none ∧
    (ngOnDestroy s).position = s.position ∧
    (ngOnDestroy s).content = s.content ∧
    (ngOnDestroy s).context = s.context := by
  simp [ngOnDestroy, markNotAlive, hide, h, disposeRef]

theorem TooltipState.eta_ref_container (s : TooltipState) (r : NbOverlayRef)
    (h1 : s.ref = some r) (h2 : s.container = none) :
    { s with ref := some r, container := none } = s := by
  cases s
  simp_all

/-- Calling `hide()` is the identity on a state where nothing is shown and no
container reference is cached. -/
theorem hide_of_not_shown (s : TooltipState) (h1 : shown s = false)
    (h2 : s.container = none) : hide s = s := by
  cases href : s.ref with
  | none =>
      rw [hide_of_ref_none s href]
      exact TooltipState.eta_container s h2
  | some r =>
      have hatt : r.attached = false := by
        simpa [shown, href, NbOverlayRef.hasAttached] using h1
      have hr : ({ r with attached := false } : NbOverlayRef) = r := by
        cases r
        simp_all
      rw [hide_of_ref_some s r href, hr]
      exact TooltipState.eta_ref_container s r href h2

end FieldLemmas

end NbTooltip

namespace NbTooltip

/-- C1: For every coordinator instance and every sequence of stimuli
(`show()`, `hide()`, `toggle()`, teardown, delivered trigger and position
notifications), at most one overlay handle is ever created; in particular,
calling `show()` when a handle already exists makes no overlay creation call
and keeps the same handle. -/
theorem C1_at_most_one_overlay :
    (∀ (host : Nat) (content : String) (p : NbPosition) (a : NbAdjustment)
        (t : NbTrigger) (ops : List Op),
        createCount (run ops (ngAfterViewInit (initialState host content p a t))) ≤ 1) ∧
    (∀ (s : TooltipState), s.ref.isSome = true →
        createCount («show» s) = createCount s ∧ refId («show» s) = refId s) := by
  constructor
  · intro host content p a t ops
    have h := (inv_run ops _
      (inv_ngAfterViewInit _ (inv_initial host content p a t))).1
    rw [h]
    split <;> omega
  · intro s hs
    rcases Option.isSome_iff_exists.mp hs with ⟨r, hr⟩
    rw [show_of_ref_some s r hr]
    refine ⟨?_, ?_⟩
    · simp [createCount, List.countP_append, List.countP_cons, Event.isOverlayCreate]
    · simp [refId, hr]

/-- Witness for C1: a concrete double-`show()` run makes at most one (in
fact exactly one) creation call, and the second `show()` adds none. -/
theorem C1_at_most_one_overlay_witness :
    createCount (run [Op.«show», Op.«show»]
      (ngAfterViewInit (initialState 0 "hint" .TOP .CLOCKWISE .HINT))) ≤ 1 ∧
    createCount («show» («show» (ngAfterViewInit
      (initialState 0 "hint" .TOP .CLOCKWISE .HINT)))) =
      createCount («show» (ngAfterViewInit
        (initialState 0 "hint" .TOP .CLOCKWISE .HINT))) := by
  exact ⟨C1_at_most_one_overlay.1 0 "hint" .TOP .CLOCKWISE .HINT [Op.«show», Op.«show»],
         (C1_at_most_one_overlay.2 («show» (ngAfterViewInit
           (initialState 0 "hint" .TOP .CLOCKWISE .HINT))) (by decide)).1⟩

/-- C2 counterexample: on a concrete instance that is initialized and shown
(handle exists, content attached), a repeated `show()` is not idempotent: it
performs a second content render call, so the rendered content is re-created
by the repeated `show()` itself, not only by position changes. -/
theorem C2_counterexample :
    shown («show» (ngAfterViewInit (initialState 0 "hint" .TOP .CLOCKWISE .HINT))) = true ∧
    renderCount («show» («show» (ngAfterViewInit
      (initialState 0 "hint" .TOP .CLOCKWISE .HINT)))) =
      renderCount («show» (ngAfterViewInit
        (initialState 0 "hint" .TOP .CLOCKWISE .HINT))) + 1 ∧
    «show» («show» (ngAfterViewInit (initialState 0 "hint" .TOP .CLOCKWISE .HINT))) ≠
      «show» (ngAfterViewInit (initialState 0 "hint" .TOP .CLOCKWISE .HINT)) := by
  refine ⟨by decide, by decide, by decide⟩

/-- C2 amended: calling `show()` when a handle already exists re-uses the
handle (no overlay creation call) but is not content-idempotent: every
`show()` call performs one content render call and reassigns the container
reference to freshly rendered content built from the current props. -/
theorem C2_show_rerenders :
    ∀ (s : TooltipState) (r : NbOverlayRef), s.ref = some r →
      («show» s).log = s.log ++ [Event.render] ∧
      («show» s).ref = some { r with attached := true } ∧
      («show» s).container = some { position := s.position
                                    content := s.content
                                    context := s.context } := by
  intro s r h
  rw [show_of_ref_some s r h]
  exact ⟨rfl, rfl, rfl⟩

/-- Witness for the amended C2 at a concrete shown instance. -/
theorem C2_show_rerenders_witness :
    («show» («show» (ngAfterViewInit (initialState 0 "hint" .TOP .CLOCKWISE .HINT)))).log =
      («show» (ngAfterViewInit (initialState 0 "hint" .TOP .CLOCKWISE .HINT))).log ++
        [Event.render] :=
  (C2_show_rerenders («show» (ngAfterViewInit (initialState 0 "hint" .TOP .CLOCKWISE .HINT)))
    { id := 0
      config := { positionStrategy := some { host := 0
                                             position := .TOP
                                             adjustment := .CLOCKWISE
                                             offset := 8 }
                  scrollStrategy := .reposition }
      attached := true
      disposed := false } (by decide)).1

/-- C3 counterexample: on a concrete freshly constructed instance,
initialization does not build and subscribe the position strategy before the
trigger strategy — the recorded init log starts with the trigger strategy
build, and the position strategy build occurs strictly after it. -/
theorem C3_counterexample :
    (ngAfterViewInit (initialState 0 "hint" .TOP .CLOCKWISE .HINT)).log =
      [.buildTriggerStrategy .HINT, .subscribeTriggers,
       .buildPositionStrategy .TOP .CLOCKWISE 8, .subscribePositionChange] ∧
    ¬ positionBuiltBeforeTrigger
        (ngAfterViewInit (initialState 0 "hint" .TOP .CLOCKWISE .HINT)).log := by
  refine ⟨by decide, ?_⟩
  unfold positionBuiltBeforeTrigger
  decide

/-- C3 amended: initialization performs its four steps in this order: first
build the trigger strategy (from the trigger mode) and subscribe its
show/hide streams, then build the position strategy from placement,
adjustment and fixed offset 8 connected to the host, and subscribe to its
position-change notifications; the built position strategy is stored for
later overlay creation. -/
theorem C3_init_order :
    ∀ s : TooltipState,
      (ngAfterViewInit s).log = s.log ++
        [.buildTriggerStrategy s.trigger, .subscribeTriggers,
         .buildPositionStrategy s.position s.adjustment 8, .subscribePositionChange] ∧
      (ngAfterViewInit s).positionStrategy =
        some { host := s.hostRef
               position := s.position
               adjustment := s.adjustment
               offset := 8 } := by
  intro s
  constructor <;>
    simp [ngAfterViewInit, subscribeOnTriggers, subscribeOnPositionChange,
      createPositionStrategy]

end NbTooltip

namespace NbTooltip

/-- C4: when a handle exists, `hide()` detaches the rendered content from
the overlay while retaining the handle (same handle, not disposed) and
clears the cached container reference; on any reachable state where nothing
is shown, `hide()` is a no-op that changes nothing. -/
theorem C4_hide_detaches_and_noop :
    (∀ (s : TooltipState) (r : NbOverlayRef), s.ref = some r →
        (hide s).ref = some { r with attached := false } ∧
        (hide s).container = none ∧
        refDisposed (hide s) = refDisposed s ∧
        (hide s).log = s.log) ∧
    (∀ (host : Nat) (content : String) (p : NbPosition) (a : NbAdjustment)
        (t : NbTrigger) (ops : List Op),
        shown (run ops (ngAfterViewInit (initialState host content p a t))) = false →
        hide (run ops (ngAfterViewInit (initialState host content p a t))) =
          run ops (ngAfterViewInit (initialState host content p a t))) := by
  constructor
  · intro s r h
    refine ⟨?_, ?_, ?_, log_hide s⟩
    · rw [hide_of_ref_some s r h]
    · rw [hide_of_ref_some s r h]
    · rw [hide_of_ref_some s r h]
      simp [refDisposed, h]
  · intro host content p a t ops hsh
    have hinv := inv_run ops _
      (inv_ngAfterViewInit _ (inv_initial host content p a t))
    refine hide_of_not_shown _ hsh ?_
    rcases hc : (run ops (ngAfterViewInit (initialState host content p a t))).container
      with _ | c
    · rfl
    · exact absurd (hinv.2 (by simp [hc])) (by simp [hsh])

/-- Witness for C4: on a concrete shown instance `hide()` detaches and
clears the container; on the concrete freshly-initialized (hidden) instance
`hide()` changes nothing. -/
theorem C4_hide_detaches_and_noop_witness :
    (hide («show» (ngAfterViewInit (initialState 0 "hint" .TOP .CLOCKWISE .HINT)))).container
        = none ∧
    hide (run [] (ngAfterViewInit (initialState 0 "hint" .TOP .CLOCKWISE .HINT))) =
      run [] (ngAfterViewInit (initialState 0 "hint" .TOP .CLOCKWISE .HINT)) := by
  refine ⟨?_, ?_⟩
  · exact (C4_hide_detaches_and_noop.1
      («show» (ngAfterViewInit (initialState 0 "hint" .TOP .CLOCKWISE .HINT)))
      { id := 0
        config := { positionStrategy := some { host := 0
                                               position := .TOP
                                               adjustment := .CLOCKWISE
                                               offset := 8 }
                    scrollStrategy := .reposition }
        attached := true
        disposed := false } (by decide)).2.1
  · exact C4_hide_detaches_and_noop.2 0 "hint" .TOP .CLOCKWISE .HINT [] (by decide)

/-- C5: `toggle()` calls `hide()` exactly when the handle exists and has
attached content, and calls `show()` otherwise; consequently, starting from
the freshly initialized (hidden) instance, the first `toggle()` shows, the
second hides, and the third shows again. -/
theorem C5_toggle_alternates :
    (∀ s : TooltipState, shown s = true → toggle s = hide s) ∧
    (∀ s : TooltipState, shown s = false → toggle s = «show» s) ∧
    (∀ (host : Nat) (content : String) (p : NbPosition) (a : NbAdjustment)
        (t : NbTrigger),
        shown (ngAfterViewInit (initialState host content p a t)) = false ∧
        shown (toggle (ngAfterViewInit (initialState host content p a t))) = true ∧
        shown (toggle (toggle (ngAfterViewInit (initialState host content p a t)))) = false ∧
        shown (toggle (toggle (toggle
          (ngAfterViewInit (initialState host content p a t))))) = true) := by
  refine ⟨?_, ?_, ?_⟩
  · intro s h
    cases href : s.ref with
    | none => simp [shown, href] at h
    | some r =>
        have : r.hasAttached = true := by simpa [shown, href] using h
        simp [toggle, href, this]
  · intro s h
    cases href : s.ref with
    | none => simp [toggle, href]
    | some r =>
        have : r.hasAttached = false := by simpa [shown, href] using h
        simp [toggle, href, this]
  · intro host content p a t
    refine ⟨?_, ?_, ?_, ?_⟩ <;>
      simp [ngAfterViewInit, subscribeOnTriggers, subscribeOnPositionChange,
        initialState, toggle, «show», hide, openTooltip, createOverlay, shown,
        NbOverlayRef.hasAttached, createPositionStrategy]

/-- Witness for C5 at concrete shown and hidden instances. -/
theorem C5_toggle_alternates_witness :
    toggle («show» (ngAfterViewInit (initialState 0 "hint" .TOP .CLOCKWISE .HINT))) =
      hide («show» (ngAfterViewInit (initialState 0 "hint" .TOP .CLOCKWISE .HINT))) ∧
    toggle (ngAfterViewInit (initialState 0 "hint" .TOP .CLOCKWISE .HINT)) =
      «show» (ngAfterViewInit (initialState 0 "hint" .TOP .CLOCKWISE .HINT)) := by
  exact ⟨C5_toggle_alternates.1 _ (by decide), C5_toggle_alternates.2.1 _ (by decide)⟩

/-- C6: once the liveness flag is false, a delivered position-change
notification patches nothing and trigger show/hide deliveries invoke
nothing — each delivery leaves the state unchanged; moreover teardown sets
the flag false and no stimulus ever sets it true again. -/
theorem C6_liveness_filter :
    (∀ (s : TooltipState) (p : NbPosition), s.alive = false →
        deliverPositionChange s p = s ∧
        deliverTriggerShow s = s ∧
        deliverTriggerHide s = s) ∧
    (∀ s : TooltipState, (ngOnDestroy s).alive = false) ∧
    (∀ (op : Op) (s : TooltipState), s.alive = false → (step op s).alive = false) := by
  refine ⟨?_, alive_ngOnDestroy, ?_⟩
  · intro s p h
    exact ⟨by simp [deliverPositionChange, h], by simp [deliverTriggerShow, h],
           by simp [deliverTriggerHide, h]⟩
  · intro op s h
    cases op with
    | «show» => rw [step, alive_show]; exact h
    | hide => rw [step, alive_hide]; exact h
    | toggle => rw [step, alive_toggle]; exact h
    | destroy => exact alive_ngOnDestroy s
    | triggerShow => simp [step, deliverTriggerShow, h]
    | triggerHide => simp [step, deliverTriggerHide, h]
    | posChange p => simp [step, deliverPositionChange, h]

/-- Witness for C6: deliveries to a concrete torn-down instance change
nothing. -/
theorem C6_liveness_filter_witness :
    deliverPositionChange
        (ngOnDestroy («show» (ngAfterViewInit
          (initialState 0 "hint" .TOP .CLOCKWISE .HINT)))) .LEFT =
      ngOnDestroy («show» (ngAfterViewInit
        (initialState 0 "hint" .TOP .CLOCKWISE .HINT))) ∧
    deliverTriggerShow
        (ngOnDestroy («show» (ngAfterViewInit
          (initialState 0 "hint" .TOP .CLOCKWISE .HINT)))) =
      ngOnDestroy («show» (ngAfterViewInit
        (initialState 0 "hint" .TOP .CLOCKWISE .HINT))) := by
  have h := C6_liveness_filter.1
    (ngOnDestroy («show» (ngAfterViewInit
      (initialState 0 "hint" .TOP .CLOCKWISE .HINT)))) .LEFT (by decide)
  exact ⟨h.1, h.2.1⟩

end NbTooltip

namespace NbTooltip

/-- C7: teardown is exactly the sequence: set the liveness flag false, call
`hide()`, then dispose the handle if one exists; afterwards the flag is
false, an existing handle is detached and disposed (but still stored) and
the container is cleared. The handle's disposed state is never changed by
`show()`, `hide()` or `toggle()` — it is created undisposed by the first
`show()` and only detached (not disposed) by `hide()`. -/
theorem C7_teardown_order :
    (∀ s : TooltipState, ngOnDestroy s = disposeRef (hide (markNotAlive s))) ∧
    (∀ s : TooltipState, (ngOnDestroy s).alive = false) ∧
    (∀ (s : TooltipState) (r : NbOverlayRef), s.ref = some r →
        (ngOnDestroy s).ref = some { r with attached := false, disposed := true } ∧
        (ngOnDestroy s).container = none) ∧
    (∀ s : TooltipState, s.ref = none → (ngOnDestroy s).ref = none) ∧
    (∀ s : TooltipState,
        refDisposed («show» s) = refDisposed s ∧
        refDisposed (hide s) = refDisposed s ∧
        refDisposed (toggle s) = refDisposed s) ∧
    (∀ s : TooltipState, s.ref = none →
        («show» s).ref =
          some { id := createCount s
                 config := { positionStrategy := s.positionStrategy
                             scrollStrategy := .reposition }
                 attached := true
                 disposed := false }) := by
  refine ⟨fun _ => rfl, alive_ngOnDestroy, ?_, ?_, ?_, ?_⟩
  · intro s r h
    have hd := ngOnDestroy_ref_some s r h
    exact ⟨hd.1, hd.2.1⟩
  · intro s h
    simp [ngOnDestroy, markNotAlive, hide, h, disposeRef]
  · intro s
    refine ⟨?_, ?_, ?_⟩
    · cases href : s.ref with
      | none => rw [show_of_ref_none s href]; simp [refDisposed, href]
      | some r => rw [show_of_ref_some s r href]; simp [refDisposed, href]
    · cases href : s.ref with
      | none => rw [hide_of_ref_none s href]; simp [refDisposed, href]
      | some r => rw [hide_of_ref_some s r href]; simp [refDisposed, href]
    · cases href : s.ref with
      | none =>
          rw [toggle, href, show_of_ref_none s href]
          simp [refDisposed, href]
      | some r =>
          by_cases hatt : r.hasAttached
          · rw [toggle, href]
            simp only [hatt, if_true]
            rw [hide_of_ref_some s r href]
            simp [refDisposed, href]
          · rw [toggle, href]
            simp only [hatt, if_false, Bool.false_eq_true]
            rw [show_of_ref_some s r href]
            simp [refDisposed, href]
  · intro s h
    rw [show_of_ref_none s h]

/-- Witness for C7 at a concrete shown instance and a concrete fresh one. -/
theorem C7_teardown_order_witness :
    (ngOnDestroy («show» (ngAfterViewInit
        (initialState 0 "hint" .TOP .CLOCKWISE .HINT)))).container = none ∧
    (ngOnDestroy (initialState 0 "hint" .TOP .CLOCKWISE .HINT)).ref = none ∧
    refDisposed (hide («show» (ngAfterViewInit
        (initialState 0 "hint" .TOP .CLOCKWISE .HINT)))) =
      refDisposed («show» (ngAfterViewInit
        (initialState 0 "hint" .TOP .CLOCKWISE .HINT))) := by
  refine ⟨?_, ?_, ?_⟩
  · exact (C7_teardown_order.2.2.1
      («show» (ngAfterViewInit (initialState 0 "hint" .TOP .CLOCKWISE .HINT)))
      { id := 0
        config := { positionStrategy := some { host := 0
                                               position := .TOP
                                               adjustment := .CLOCKWISE
                                               offset := 8 }
                    scrollStrategy := .reposition }
        attached := true
        disposed := false } (by decide)).2
  · exact C7_teardown_order.2.2.2.1 (initialState 0 "hint" .TOP .CLOCKWISE .HINT)
      (by decide)
  · exact (C7_teardown_order.2.2.2.2.1
      («show» (ngAfterViewInit (initialState 0 "hint" .TOP .CLOCKWISE .HINT)))).2.1

/-- C8: for every placement, adjustment policy (and trigger mode, host and
content), constructing the coordinator, initializing it, and calling
`show()` makes exactly one overlay creation call, and the stored handle's
configuration carries the position strategy built from that placement, that
adjustment, offset 8, connected to the host, together with the reposition
scroll strategy. -/
theorem C8_show_creates_configured_overlay :
    ∀ (host : Nat) (content : String) (P : NbPosition) (A : NbAdjustment)
      (t : NbTrigger),
      createCount («show» (ngAfterViewInit (initialState host content P A t))) = 1 ∧
      («show» (ngAfterViewInit (initialState host content P A t))).ref =
        some { id := 0
               config := { positionStrategy :=
                             some { host := host
                                    position := P
                                    adjustment := A
                                    offset := 8 }
                           scrollStrategy := .reposition }
               attached := true
               disposed := false } := by
  intro host content P A t
  constructor <;>
    simp [«show», openTooltip, createOverlay, createCount, ngAfterViewInit,
      subscribeOnTriggers, subscribeOnPositionChange, createPositionStrategy,
      initialState, List.countP_cons, Event.isOverlayCreate]

/-- C9: the icon and status input setters each merge their key into the
content context without discarding the other key: setting both, in either
order, yields a context holding both entries, and each setter leaves the
other entry untouched. -/
theorem C9_context_merges :
    ∀ (s : TooltipState) (i st : String),
      (setStatus (setIcon s i) st).context =
        { icon := some i, status := some st } ∧
      (setIcon (setStatus s st) i).context =
        { icon := some i, status := some st } ∧
      (setStatus s st).context.icon = s.context.icon ∧
      (setIcon s i).context.status = s.context.status := by
  intro s i st
  exact ⟨rfl, rfl, rfl, rfl⟩

/-- C10: the liveness flag gates only the reactive deliveries, not the
public operations: once a handle is stored, neither `show()`, `hide()`,
`toggle()` nor teardown clears or replaces it (the stored creation
identifier is unchanged), and a direct `show()` after teardown makes no
overlay creation call but renders content into the retained, already
disposed handle. -/
theorem C10_handle_never_replaced :
    ∀ (s : TooltipState) (r : NbOverlayRef), s.ref = some r →
      refId («show» s) = some r.id ∧
      refId (hide s) = some r.id ∧
      refId (toggle s) = some r.id ∧
      refId (ngOnDestroy s) = some r.id ∧
      createCount («show» (ngOnDestroy s)) = createCount s ∧
      refDisposed (ngOnDestroy s) = true ∧
      refDisposed («show» (ngOnDestroy s)) = true ∧
      («show» (ngOnDestroy s)).container =
        some { position := s.position
               content := s.content
               context := s.context } := by
  intro s r h
  have hd := ngOnDestroy_ref_some s r h
  have hshow := show_of_ref_some (ngOnDestroy s) _ hd.1
  refine ⟨?_, ?_, ?_, ?_, ?_, ?_, ?_, ?_⟩
  · rw [show_of_ref_some s r h]; simp [refId]
  · rw [hide_of_ref_some s r h]; simp [refId]
  · cases hatt : r.hasAttached
    · rw [toggle, h]
      simp only [hatt, Bool.false_eq_true, if_false]
      rw [show_of_ref_some s r h]; simp [refId]
    · rw [toggle, h]
      simp only [hatt, if_true]
      rw [hide_of_ref_some s r h]; simp [refId]
  · simp [refId, hd.1]
  · rw [hshow]
    simp only [createCount]
    rw [List.countP_append, log_ngOnDestroy]
    simp [Event.isOverlayCreate]
  · simp [refDisposed, hd.1]
  · rw [hshow]
    simp [refDisposed]
  · rw [hshow]
    simp [hd.2.2.1, hd.2.2.2.1, hd.2.2.2.2]

/-- Witness for C10 at a concrete shown-then-destroyed instance. -/
theorem C10_handle_never_replaced_witness :
    createCount («show» (ngOnDestroy («show» (ngAfterViewInit
        (initialState 0 "hint" .TOP .CLOCKWISE .HINT))))) =
      createCount («show» (ngAfterViewInit
        (initialState 0 "hint" .TOP .CLOCKWISE .HINT))) ∧
    refDisposed («show» (ngOnDestroy («show» (ngAfterViewInit
        (initialState 0 "hint" .TOP .CLOCKWISE .HINT))))) = true := by
  have h := C10_handle_never_replaced
    («show» (ngAfterViewInit (initialState 0 "hint" .TOP .CLOCKWISE .HINT)))
    { id := 0
      config := { positionStrategy := some { host := 0
                                             position := .TOP
                                             adjustment := .CLOCKWISE
                                             offset := 8 }
                  scrollStrategy := .reposition }
      attached := true
      disposed := false } (by decide)
  exact ⟨h.2.2.2.2.1, h.2.2.2.2.2.2.1⟩

end NbTooltip
